import Mathlib

/-!
Verification of the tab/session lifecycle manager and tool-dispatch contract
of a Playwright-based MCP server (src/playwright_mcp_server/server.py and
src/playwright_mcp_server/tools.py), via a shallow embedding.

Modelling conventions:
* Python values appearing in tool-call argument bags are modelled by the
  inductive type Value. Python treats bool as a subclass of int, so the
  isinstance(x, (int, float)) test in the validator accepts booleans; pyNum
  reflects this by mapping vBool to 0 or 1. Numbers are modelled as rationals
  (floats are out of scope beyond their ordering, and NaN is not modelled).
* A Python dict is an insertion-ordered association list with unique keys
  (Bag). Assignment to an existing key keeps its position; a new key is
  appended (bagSet). Membership k in d corresponds to bagGet d k being some.
* Pages, browsers, contexts and the engine are external handles; a page is
  identified by the Nat that counts its creation order. Engine behaviour
  (navigation responses, element lookups, fill/click outcomes) is an oracle
  parameter, never hard-coded.
* Python str.strip is modelled by pyStrip (drop ASCII whitespace at both
  ends), str.startswith by String.startsWith, str.lower by String.toLower.
* The in operator on strings is substring occurrence, modelled by containsSub.
-/

/-- A Python value as it can appear in a tool-call argument bag.
Dictionary keys are modelled as strings (tool arguments arrive as JSON,
whose object keys are strings). -/
inductive Value where
  | vNum (q : Rat)
  | vBool (b : Bool)
  | vStr (s : String)
  | vNone
  | vDict (entries : List (String × Value))
  deriving Repr

/-- Python str.strip (no argument): the string without leading or trailing
whitespace. -/
def pyStrip (s : String) : String :=
  String.mk (((s.data.dropWhile Char.isWhitespace).reverse.dropWhile
    Char.isWhitespace).reverse)

/-- The numeric reading of a value under isinstance(x, (int, float)):
Python bools are ints, so vBool counts as numeric with value 0 or 1. -/
def pyNum : Value → Option Rat
  | Value.vNum q => some q
  | Value.vBool b => some (if b then 1 else 0)
  | _ => none

/-- An argument bag: an insertion-ordered association list with unique keys,
modelling a Python dict. -/
abbrev Bag := List (String × Value)

/-- Dictionary lookup: d.get(k) / the membership test k in d. -/
def bagGet : Bag → String → Option Value
  | [], _ => none
  | (k', v) :: rest, k => if k' = k then some v else bagGet rest k

/-- Dictionary assignment d[k] = v: overwrites in place, keeping the key
position; appends if the key is absent. -/
def bagSet : Bag → String → Value → Bag
  | [], k, v => [(k, v)]
  | (k', v') :: rest, k, v =>
    if k' = k then (k, v) :: rest else (k', v') :: bagSet rest k v

/-- The character for a decimal digit (argument below 10). -/
def decDigit (n : Nat) : Char :=
  if n = 0 then '0' else if n = 1 then '1' else if n = 2 then '2'
  else if n = 3 then '3' else if n = 4 then '4' else if n = 5 then '5'
  else if n = 6 then '6' else if n = 7 then '7' else if n = 8 then '8'
  else '9'

/-- Decimal digit list, most significant first, with structural fuel so the
kernel can evaluate it; fuel n + 1 always suffices because n / 10 < n. -/
def natDigitsAux : Nat → Nat → List Char
  | 0, _ => []
  | fuel + 1, n =>
    if n < 10 then [decDigit n]
    else natDigitsAux fuel (n / 10) ++ [decDigit (n % 10)]

/-- Decimal digit list of a natural number, most significant first. -/
def natDigits (n : Nat) : List Char := natDigitsAux (n + 1) n

/-- Python str(n) for a non-negative int. -/
def natStr (n : Nat) : String := String.mk (natDigits n)

/-- Python str(i) for an int, with a leading minus sign when negative. -/
def intStr (i : Int) : String :=
  if i < 0 then "-" ++ natStr i.natAbs else natStr i.natAbs

/-- Timeout sanitization step of _validate_arguments (server.py:546-551):
a present timeout that is not a positive number is replaced with 5000,
and one above 60000 is clamped to 60000. This step never fails. -/
def vTimeout (b : Bag) : Bag :=
  match bagGet b ("timeout") with
  | none => b
  | some t =>
    match pyNum t with
    | none => bagSet b ("timeout") (Value.vNum 5000)
    | some q =>
      if q ≤ 0 then bagSet b ("timeout") (Value.vNum 5000)
      else if 60000 < q then bagSet b ("timeout") (Value.vNum 60000)
      else b

/-- Selector validation step (server.py:553-557): a present selector must be
a string with non-empty strip; it is stripped in place. -/
def vSelector (b : Bag) : Except String Bag :=
  match bagGet b ("selector") with
  | none => Except.ok b
  | some (Value.vStr s) =>
    if pyStrip s = "" then Except.error ("Selector must be a non-empty string")
    else Except.ok (bagSet b ("selector") (Value.vStr (pyStrip s)))
  | some _ => Except.error ("Selector must be a non-empty string")

/-- URL validation step (server.py:559-565): a present url must be a string
with non-empty strip and start with one of the three allowed schemes. The
scheme test runs on the original, unstripped string, and the bag is not
modified. -/
def vUrl (b : Bag) : Except String Bag :=
  match bagGet b ("url") with
  | none => Except.ok b
  | some (Value.vStr u) =>
    if pyStrip u = "" then Except.error ("URL must be a non-empty string")
    else if u.startsWith ("http://") || u.startsWith ("https://")
        || u.startsWith ("file://") then Except.ok b
    else Except.error ("URL must start with http://, https://, or file://")
  | some _ => Except.error ("URL must be a non-empty string")

/-- Text validation step (server.py:567-570): a present text must be a
string; the empty string is allowed. -/
def vText (b : Bag) : Except String Bag :=
  match bagGet b ("text") with
  | none => Except.ok b
  | some (Value.vStr _) => Except.ok b
  | some _ => Except.error ("Text must be a string")

/-- Script validation step (server.py:572-575): a present script must be a
string with non-empty strip; not modified. -/
def vScript (b : Bag) : Except String Bag :=
  match bagGet b ("script") with
  | none => Except.ok b
  | some (Value.vStr s) =>
    if pyStrip s = "" then Except.error ("Script must be a non-empty string")
    else Except.ok b
  | some _ => Except.error ("Script must be a non-empty string")

/-- Per-entry form_data check (server.py:581-585), in iteration order: a key
with empty strip fails with the key message, then a non-string value fails
with the value message. Keys are strings by the Value model, so the
isinstance(key, str) half of the source check is always satisfied. -/
def vFormEntries : List (String × Value) → Except String Unit
  | [] => Except.ok ()
  | (k, v) :: rest =>
    if pyStrip k = "" then
      Except.error ("Form data keys must be non-empty strings (CSS selectors)")
    else
      match v with
      | Value.vStr _ => vFormEntries rest
      | _ => Except.error ("Form data values must be strings")

/-- form_data validation step (server.py:577-585): a present form_data must
be a dict whose entries all pass vFormEntries; the bag is not modified. -/
def vFormData (b : Bag) : Except String Bag :=
  match bagGet b ("form_data") with
  | none => Except.ok b
  | some (Value.vDict entries) =>
    match vFormEntries entries with
    | Except.ok _ => Except.ok b
    | Except.error e => Except.error e
  | some _ => Except.error ("Form data must be a dictionary")

/-- _validate_arguments (server.py:540-587): a None bag becomes the empty
dict, then the five per-field rules run in source order. A raised ValueError
is an error result; the name parameter is unused by the source as well. -/
def validateArguments (_name : String) (args? : Option Bag) : Except String Bag :=
  match vSelector (vTimeout (args?.getD [])) with
  | Except.error e => Except.error e
  | Except.ok b2 =>
    match vUrl b2 with
    | Except.error e => Except.error e
    | Except.ok b3 =>
      match vText b3 with
      | Except.error e => Except.error e
      | Except.ok b4 =>
        match vScript b4 with
        | Except.error e => Except.error e
        | Except.ok b5 => vFormData b5

/-- Substring occurrence on character lists: the Python in operator on
strings, scanning every start position. -/
def containsSub : List Char → List Char → Bool
  | [], pat => pat.isEmpty
  | c :: rest, pat => pat.isPrefixOf (c :: rest) || containsSub rest pat

/-- Python s1 in s2 for strings. -/
def strContains (s pat : String) : Bool := containsSub s.data pat.data

/-- Outcome of the engine call page.goto as navigate observes it:
a response with a status code, no response, or a raised error. -/
inductive NavOutcome where
  | ok (status : Nat)
  | noResponse
  | err (msg : String)

/-- PlaywrightTools.navigate (tools.py:17-37): text produced for a given url
and engine outcome. Raised errors are classified by substring tests on the
message (timeout on the lowercased message, then net::). -/
def navigateText (url : String) (o : NavOutcome) : String :=
  match o with
  | NavOutcome.noResponse => "Navigation to " ++ url ++ " failed: No response received"
  | NavOutcome.ok status =>
    if 400 ≤ status then
      "Navigation to " ++ url ++ " completed with status " ++ natStr status
    else "Successfully navigated to: " ++ url
  | NavOutcome.err msg =>
    if strContains msg.toLower ("timeout") then
      "Navigation to " ++ url ++ " timed out: " ++ msg
    else if strContains msg ("net::") then
      "Network error navigating to " ++ url ++ ": " ++ msg
    else "Failed to navigate to " ++ url ++ ": " ++ msg

/-- The fallback text collection of get_text (tools.py:127-131): each
element whose text_content is truthy (neither None nor empty) contributes
its stripped text, in element order. A whitespace-only text is truthy and
contributes the empty string. -/
def trimmedTexts (textOf : Nat → Option String) (els : List Nat) : List String :=
  els.filterMap fun el =>
    match textOf el with
    | some t => if t = "" then none else some (pyStrip t)
    | none => none

/-- PlaywrightTools.get_text (tools.py:113-135). Oracles: waitRes is the
outcome of page.wait_for_selector (an error when it raises, and the element
found otherwise); textOf is element.text_content (None possible); allRes is
the outcome of page.query_selector_all in the fallback. Elements are ids. -/
def getText (waitRes : Except String (Option Nat)) (textOf : Nat → Option String)
    (allRes : Except String (List Nat)) (selector : String) : String :=
  match waitRes with
  | Except.ok (some el) => ((textOf el).getD (""))
  | Except.ok none => ""
  | Except.error e =>
    match allRes with
    | Except.ok els =>
      if els.isEmpty then "Failed to get text from element " ++ selector ++ ": " ++ e
      else
        if (trimmedTexts textOf els).isEmpty then ""
        else String.intercalate (" | ") (trimmedTexts textOf els)
    | Except.error _ => "Failed to get text from element " ++ selector ++ ": " ++ e

/-- PlaywrightTools.fill_form (tools.py:267-290). Oracles: fillF is the
outcome of page.fill for a selector and value, clickF of page.click on the
submit selector. Success lines for fields accumulate in results in iteration
order, then an optional submit line; failure lines accumulate separately and
are printed after results. The tally subtracts the failure count from the
results count, exactly as the source does. An empty submit selector is falsy
in Python and skips the submit step. -/
def fillForm (fillF : String → String → Except String Unit)
    (clickF : String → Except String Unit)
    (formData : List (String × String)) (submitSelector : Option String) : String :=
  let fieldRes := formData.map fun kv => (kv.1, fillF kv.1 kv.2)
  let okLines := fieldRes.filterMap fun r =>
    match r.2 with
    | Except.ok _ => some ("✓ " ++ r.1 ++ ": filled")
    | Except.error _ => none
  let failedLines := fieldRes.filterMap fun r =>
    match r.2 with
    | Except.ok _ => none
    | Except.error e => some ("✗ " ++ r.1 ++ ": " ++ e)
  let results := okLines ++
    (match submitSelector with
     | none => []
     | some ss =>
       if ss = "" then []
       else [match clickF ss with
             | Except.ok _ => "✓ Form submitted via " ++ ss
             | Except.error e => "✗ Failed to submit form: " ++ e])
  let filled : Int := (results.length : Int) - (failedLines.length : Int)
  let summary := "Filled " ++ intStr filled ++ "/" ++ natStr formData.length ++ " fields"
  let summary := if 0 < failedLines.length then
    summary ++ " (" ++ natStr failedLines.length ++ " failed)" else summary
  summary ++ "\n" ++ String.intercalate ("\n") (results ++ failedLines)

/-- The session singleton (server.py:29-40): nullable engine, browser and
context handles, the ordered page list, the current page, and a counter
allocating page identities in creation order. -/
structure SessionState where
  playwright : Bool
  browser : Bool
  context : Bool
  pages : List Nat
  currentPage : Option Nat
  nextId : Nat
  deriving Repr, DecidableEq

/-- The state at process start (server.py:29-37). -/
def freshSession : SessionState :=
  { playwright := false, browser := false, context := false,
    pages := [], currentPage := none, nextId := 0 }

/-- First statement of _ensure_browser (server.py:591-592): start the
engine unless already started. -/
def ensurePlaywright (s : SessionState) : SessionState :=
  if s.playwright then s else { s with playwright := true }

/-- Second statement of _ensure_browser (server.py:594-607): launch the
browser unless already launched. -/
def ensureBrowserHandle (s : SessionState) : SessionState :=
  if s.browser then s else { s with browser := true }

/-- Third statement of _ensure_browser (server.py:609-614): create the
context unless already created. -/
def ensureContext (s : SessionState) : SessionState :=
  if s.context then s else { s with context := true }

/-- Fourth statement of _ensure_browser (server.py:616-618): create a first
page, append it to the page list and make it current, unless a current page
exists. -/
def ensurePage (s : SessionState) : SessionState :=
  if s.currentPage.isSome then s
  else { s with currentPage := some s.nextId,
                pages := s.pages ++ [s.nextId],
                nextId := s.nextId + 1 }

/-- _ensure_browser (server.py:589-618): the four guarded initialization
statements in source order. -/
def ensureBrowser (s : SessionState) : SessionState :=
  ensurePage (ensureContext (ensureBrowserHandle (ensurePlaywright s)))

/-- _new_tab (server.py:620-639): ensure the session when no context exists,
create a page, append it and make it current, then navigate when a (truthy)
url was given, classifying the navigation by the Successfully substring test
on the navigate result. nav is the engine oracle for page.goto. -/
def newTab (s : SessionState) (url? : Option String)
    (nav : Nat → String → NavOutcome) : SessionState × String :=
  let s1 := if s.context then s else ensureBrowser s
  let p := s1.nextId
  let s2 := { s1 with pages := s1.pages ++ [p], currentPage := some p,
                      nextId := p + 1 }
  let noNav := (s2, "New tab opened (total tabs: " ++ natStr s2.pages.length ++ ")")
  match url? with
  | none => noNav
  | some url =>
    if url = "" then noNav
    else
      let r := navigateText url (nav p url)
      if strContains r ("Successfully") then
        (s2, "New tab opened and navigated to: " ++ url)
      else (s2, "New tab opened but navigation failed: " ++ r)

/-- _close_tab (server.py:641-658): refuse without a current page or with at
most one page; otherwise remove the current page from the list and make the
new last element current, then await page.close. The bookkeeping happens
before the close call, so when close raises (closeRaises, message closeErr)
the mutation persists and only the text reports failure. -/
def closeTab (s : SessionState) (closeRaises : Bool) (closeErr : String) :
    SessionState × String :=
  match s.currentPage with
  | none => (s, "No active tab to close")
  | some p =>
    if s.pages.length ≤ 1 then (s, "Cannot close the last tab")
    else
      let pages' := s.pages.erase p
      let s' := { s with pages := pages', currentPage := pages'.getLast? }
      if closeRaises then (s', "Failed to close tab: " ++ closeErr)
      else (s', "Tab closed (remaining tabs: " ++ natStr pages'.length ++ ")")

/-- One resource-release call attempted by cleanup. -/
inductive CloseAction where
  | closePage (p : Nat)
  | closeContext
  | closeBrowser
  | stopDriver
  deriving Repr, DecidableEq

/-- The release calls cleanup would issue, in source order (server.py:680-691):
every page in open order, then the context, the browser and the engine, each
guarded by handle truthiness. -/
def closePlan (s : SessionState) : List CloseAction :=
  (s.pages.map CloseAction.closePage)
    ++ (if s.context then [CloseAction.closeContext] else [])
    ++ (if s.browser then [CloseAction.closeBrowser] else [])
    ++ (if s.playwright then [CloseAction.stopDriver] else [])

/-- Execution of release calls under the single try of cleanup: the first
failing call (fails) raises, the exception is caught, and every later call
is skipped. -/
def runCloses (fails : CloseAction → Bool) : List CloseAction → List CloseAction
  | [] => []
  | a :: rest => if fails a then [a] else a :: runCloses fails rest

/-- cleanup (server.py:677-693): attempts the close plan inside one
try/except whose handler only logs. No handle is assigned anywhere in the
body, so the state is returned unchanged; the second component is the list
of release calls actually attempted. -/
def cleanup (s : SessionState) (fails : CloseAction → Bool) :
    SessionState × List CloseAction :=
  (s, runCloses fails (closePlan s))

/-- The engine environment a dispatch runs against: oracles for the engine
calls the executors make, plus the traceback text rendered into an error
result. exec gives the result text of the executors whose internals no claim
depends on (tools.py thin wrappers); they read and write no session state. -/
structure ToolEnv where
  nav : Nat → String → NavOutcome
  waitFor : Nat → String → Value → Except String (Option Nat)
  textOf : Nat → Option String
  queryAll : Nat → String → Except String (List Nat)
  fillField : Nat → String → String → Except String Unit
  clickSel : Nat → String → Except String Unit
  exec : String → Bag → String
  tb : String
  closeRaises : Bool
  closeErr : String

/-- The fixed enumerated set of tool names handle_call_tool dispatches on
(server.py:427-529), in source order. -/
def knownTools : List String :=
  ["browser_navigate", "browser_click", "browser_type", "browser_screenshot",
   "browser_get_text", "browser_wait_for_selector", "browser_evaluate",
   "browser_new_tab", "browser_close_tab", "browser_get_title",
   "browser_get_url", "browser_select_option", "browser_check_checkbox",
   "browser_uncheck_checkbox", "browser_hover", "browser_scroll_to",
   "browser_get_attribute", "browser_wait_for_load_state", "browser_go_back",
   "browser_go_forward", "browser_reload", "browser_fill_form",
   "browser_get_links"]

/-- arguments.get(k) coerced to the string the executor receives; validation
guarantees a string wherever this is used. -/
def getStr (b : Bag) (k : String) : String :=
  match bagGet b k with
  | some (Value.vStr s) => s
  | _ => ""

/-- arguments.get(k) as an optional string (None when absent). -/
def getStrOpt (b : Bag) (k : String) : Option String :=
  match bagGet b k with
  | some (Value.vStr s) => some s
  | _ => none

/-- arguments.get("form_data", empty dict) restricted to its string-valued
entries; validation guarantees they all are. -/
def getFormData (b : Bag) : List (String × String) :=
  match bagGet b ("form_data") with
  | some (Value.vDict entries) =>
    entries.filterMap fun kv =>
      match kv.2 with
      | Value.vStr v => some (kv.1, v)
      | _ => none
  | _ => []

/-- handle_call_tool (server.py:412-538): validate the arguments (a raised
ValueError is caught by the dispatch try and rendered with the traceback),
ensure the browser, guard on a current page, then resolve the name through
the elif chain in source order; an unmatched name produces the Unknown tool
text. Executor calls other than the tab operations leave the session state
unchanged; their texts come from the oracles. -/
def handleCallTool (s : SessionState) (name : String) (args? : Option Bag)
    (env : ToolEnv) : SessionState × String :=
  match validateArguments name args? with
  | Except.error e =>
    (s, "Error executing " ++ name ++ ": " ++ e ++ "\n" ++ env.tb)
  | Except.ok args =>
    let s1 := ensureBrowser s
    match s1.currentPage with
    | none => (s1, "No active page available")
    | some page =>
      if name = "browser_navigate" then
        (s1, navigateText (getStr args ("url")) (env.nav page (getStr args ("url"))))
      else if name = "browser_click" then (s1, env.exec name args)
      else if name = "browser_type" then (s1, env.exec name args)
      else if name = "browser_screenshot" then (s1, env.exec name args)
      else if name = "browser_get_text" then
        (s1, getText (env.waitFor page (getStr args ("selector"))
                       ((bagGet args ("timeout")).getD (Value.vNum 5000)))
               env.textOf (env.queryAll page (getStr args ("selector")))
               (getStr args ("selector")))
      else if name = "browser_wait_for_selector" then (s1, env.exec name args)
      else if name = "browser_evaluate" then (s1, env.exec name args)
      else if name = "browser_new_tab" then
        newTab s1 (getStrOpt args ("url")) env.nav
      else if name = "browser_close_tab" then
        closeTab s1 env.closeRaises env.closeErr
      else if name = "browser_get_title" then (s1, env.exec name args)
      else if name = "browser_get_url" then (s1, env.exec name args)
      else if name = "browser_select_option" then (s1, env.exec name args)
      else if name = "browser_check_checkbox" then (s1, env.exec name args)
      else if name = "browser_uncheck_checkbox" then (s1, env.exec name args)
      else if name = "browser_hover" then (s1, env.exec name args)
      else if name = "browser_scroll_to" then (s1, env.exec name args)
      else if name = "browser_get_attribute" then (s1, env.exec name args)
      else if name = "browser_wait_for_load_state" then (s1, env.exec name args)
      else if name = "browser_go_back" then (s1, env.exec name args)
      else if name = "browser_go_forward" then (s1, env.exec name args)
      else if name = "browser_reload" then (s1, env.exec name args)
      else if name = "browser_fill_form" then
        (s1, fillForm (env.fillField page) (env.clickSel page)
               (getFormData args) (getStrOpt args ("submit_selector")))
      else if name = "browser_get_links" then (s1, env.exec name args)
      else (s1, "Unknown tool: " ++ name)

/-- An inert engine environment for concrete evaluations. -/
def defaultEnv : ToolEnv :=
  { nav := fun _ _ => NavOutcome.noResponse,
    waitFor := fun _ _ _ => Except.error (""),
    textOf := fun _ => none,
    queryAll := fun _ _ => Except.ok [],
    fillField := fun _ _ _ => Except.ok (),
    clickSel := fun _ _ => Except.ok (),
    exec := fun _ _ => "",
    tb := "",
    closeRaises := false,
    closeErr := "" }

/-! Supporting lemmas about the embedding. -/

theorem bagGet_bagSet_ne (b : Bag) (k k' : String) (v : Value) (h : k' ≠ k) :
    bagGet (bagSet b k v) k' = bagGet b k' := by
  induction b with
  | nil =>
    simp only [bagSet, bagGet]
    rw [if_neg fun hh => h hh.symm]
  | cons kv rest ih =>
    obtain ⟨k0, v0⟩ := kv
    by_cases hk : k0 = k
    · subst hk
      simp [bagSet, bagGet, h, Ne.symm h]
    · simp only [bagSet, if_neg hk, bagGet]
      by_cases hk' : k0 = k'
      · simp [hk']
      · simp [hk', ih]

theorem decDigit_isDigit (n : Nat) : (decDigit n).isDigit = true := by
  unfold decDigit
  repeat' split
  all_goals decide

theorem natDigitsAux_isDigit :
    ∀ (fuel n : Nat), ∀ c ∈ natDigitsAux fuel n, c.isDigit = true := by
  intro fuel
  induction fuel with
  | zero => intro n c hc; simp [natDigitsAux] at hc
  | succ fuel ih =>
    intro n c hc
    rw [natDigitsAux] at hc
    split at hc
    · simp only [List.mem_singleton] at hc
      exact hc ▸ decDigit_isDigit n
    · rcases List.mem_append.mp hc with h | h
      · exact ih (n / 10) c h
      · simp only [List.mem_singleton] at h
        exact h ▸ decDigit_isDigit (n % 10)

theorem natDigits_isDigit (n : Nat) : ∀ c ∈ natDigits n, c.isDigit = true :=
  natDigitsAux_isDigit (n + 1) n

theorem natStr_isDigit (n : Nat) : ∀ c ∈ (natStr n).data, c.isDigit = true :=
  natDigits_isDigit n

theorem containsSub_iff (l pat : List Char) :
    containsSub l pat = true ↔ ∃ s t, l = s ++ pat ++ t := by
  induction l with
  | nil =>
    simp only [containsSub, List.isEmpty_iff]
    constructor
    · rintro rfl
      exact ⟨[], [], rfl⟩
    · rintro ⟨s, t, h⟩
      have h' := h.symm
      simp only [List.append_eq_nil] at h'
      exact h'.1.2
  | cons c rest ih =>
    simp only [containsSub, Bool.or_eq_true, List.isPrefixOf_iff_prefix, ih]
    constructor
    · rintro (⟨t, ht⟩ | ⟨s, t, h⟩)
      · exact ⟨[], t, by simp [ht.symm]⟩
      · exact ⟨c :: s, t, by simp [h]⟩
    · rintro ⟨s, t, h⟩
      cases s with
      | nil =>
        left
        exact ⟨t, by simpa using h.symm⟩
      | cons c0 s' =>
        right
        simp only [List.cons_append, List.cons.injEq] at h
        exact ⟨s', t, h.2⟩

theorem occSplit {α : Type} (pat x y : List α)
    (h : ∃ s t, x ++ y = s ++ pat ++ t) :
    (∃ s t, x = s ++ pat ++ t) ∨
    (∃ p1 p2 s t, pat = p1 ++ p2 ∧ p1 ≠ [] ∧ p2 ≠ [] ∧ x = s ++ p1 ∧ y = p2 ++ t) ∨
    (∃ s t, y = s ++ pat ++ t) := by
  obtain ⟨s, t, hst⟩ := h
  by_cases h1 : s.length + pat.length ≤ x.length
  · left
    have hsp : (s ++ pat) <+: x ++ y := ⟨t, by rw [← hst]⟩
    have hx : x <+: x ++ y := List.prefix_append x y
    have hpre : (s ++ pat) <+: x :=
      List.prefix_of_prefix_length_le hsp hx (by simpa using h1)
    obtain ⟨t', ht'⟩ := hpre
    exact ⟨s, t', by rw [← ht']⟩
  · by_cases h2 : x.length ≤ s.length
    · right; right
      have hs : s <+: x ++ y := ⟨pat ++ t, by rw [hst]; simp⟩
      have hx : x <+: x ++ y := List.prefix_append x y
      have hpre : x <+: s := List.prefix_of_prefix_length_le hx hs h2
      obtain ⟨s', hs'⟩ := hpre
      refine ⟨s', t, ?_⟩
      have hcc : x ++ y = x ++ (s' ++ pat ++ t) := by
        rw [hst, ← hs']
        simp
      exact List.append_cancel_left hcc
    · right; left
      have hsx : s.length < x.length := by omega
      have hk2 : x.length - s.length < pat.length := by omega
      set k := x.length - s.length with hk
      have key : (s ++ pat.take k) ++ (pat.drop k ++ t) = x ++ y := by
        have hmid : (s ++ pat.take k) ++ (pat.drop k ++ t) = (s ++ pat) ++ t := by
          conv_rhs => rw [← List.take_append_drop k pat]
          simp only [List.append_assoc]
        rw [hmid, ← hst]
      have hsp : (s ++ pat.take k) <+: x ++ y := ⟨pat.drop k ++ t, key⟩
      have hlen : (s ++ pat.take k).length = x.length := by
        simp only [List.length_append, List.length_take]
        omega
      have hxeq : x = s ++ pat.take k :=
        ((List.prefix_of_prefix_length_le hsp (List.prefix_append x y)
          (by omega)).eq_of_length hlen).symm
      have hyeq : y = pat.drop k ++ t := by
        have hcc : x ++ y = x ++ (pat.drop k ++ t) := by
          rw [← key, hxeq]
        exact List.append_cancel_left hcc
      refine ⟨pat.take k, pat.drop k, s, t, (List.take_append_drop k pat).symm,
        ?_, ?_, hxeq, hyeq⟩
      · intro hnil
        rcases List.take_eq_nil_iff.mp hnil with h' | h'
        · omega
        · rw [h'] at hk2
          simp at hk2
      · intro hnil
        have := List.drop_eq_nil_iff.mp hnil
        omega

theorem mem_of_occurs {α : Type} {l pat s t : List α} {c : α}
    (h : l = s ++ pat ++ t) (hc : c ∈ pat) : c ∈ l := by
  subst h
  simp [hc]

theorem navMsg_no_success (url : String) (status : Nat)
    (hurl : containsSub url.data (("Successfully").data) = false) :
    strContains ("Navigation to " ++ url ++ " completed with status " ++ natStr status)
      ("Successfully") = false := by
  by_contra hcon
  rw [Bool.not_eq_false, strContains, containsSub_iff] at hcon
  have hdata : ("Navigation to " ++ url ++ " completed with status " ++ natStr status).data
      = ("Navigation to ").data ++ (url.data ++ ((" completed with status ").data
        ++ (natStr status).data)) := by
    simp [String.data_append, List.append_assoc]
  rw [hdata] at hcon
  have hSA : ¬ ('S' ∈ ("Navigation to ").data) := by decide
  have hSpat : 'S' ∈ ("Successfully").data := by decide
  have hSm : ¬ ('S' ∈ (" completed with status ").data) := by decide
  have hSd : ¬ ('S' ∈ (natStr status).data) := by
    intro hmem
    have := natStr_isDigit status 'S' hmem
    simp at this
  rcases occSplit _ _ _ hcon with ⟨s, t, hA⟩ | ⟨p1, p2, s, t, hp, hp1, _, hxA, _⟩ | hrest
  · exact hSA (mem_of_occurs hA hSpat)
  · have hp1S : 'S' ∈ p1 := by
      cases p1 with
      | nil => exact absurd rfl hp1
      | cons a p1' =>
        have : a = 'S' := by
          have hh : ('S' :: ("uccessfully").data : List Char) = a :: (p1' ++ p2) := by
            rw [show (("Successfully").data : List Char)
                = 'S' :: ("uccessfully").data from by decide] at hp
            simpa using hp
          exact (List.cons.injEq _ _ _ _ ▸ hh).1.symm
        simp [this]
    exact hSA (hxA ▸ List.mem_append_right s hp1S)
  · rcases occSplit _ _ _ hrest with ⟨s, t, hU⟩ | ⟨p1, p2, s, t, hp, _, hp2, _, hyM⟩ | ⟨s, t, hM⟩
    · have : containsSub url.data (("Successfully").data) = true :=
        (containsSub_iff _ _).mpr ⟨s, t, hU⟩
      rw [hurl] at this
      exact Bool.false_ne_true this
    · have hsp : ¬ (' ' ∈ ("Successfully").data) := by decide
      apply hsp
      have hp2head : ∃ p2', p2 = ' ' :: p2' := by
        cases p2 with
        | nil => exact absurd rfl hp2
        | cons a p2' =>
          refine ⟨p2', ?_⟩
          have hh : (' ' :: (("completed with status ").data ++ (natStr status).data)
              : List Char) = a :: (p2' ++ t) := by
            have hsp2 : ((" completed with status ").data : List Char)
                = ' ' :: ("completed with status ").data := by decide
            rw [hsp2] at hyM
            simpa using hyM
          have : a = ' ' := ((List.cons.injEq _ _ _ _ ▸ hh).1).symm
          rw [this]
      obtain ⟨p2', hp2'⟩ := hp2head
      rw [hp, hp2']
      exact List.mem_append_right p1 (List.mem_cons_self _ _)
    · have hmem : 'S' ∈ (" completed with status ").data ++ (natStr status).data :=
        mem_of_occurs hM hSpat
      rcases List.mem_append.mp hmem with h | h
      · exact hSm h
      · exact hSd h

theorem runCloses_all_ok (fails : CloseAction → Bool) (l : List CloseAction)
    (h : ∀ a ∈ l, fails a = false) : runCloses fails l = l := by
  induction l with
  | nil => rfl
  | cons a rest ih =>
    simp only [runCloses, h a (List.mem_cons_self a rest)]
    simp only [Bool.false_eq_true, if_false]
    rw [ih fun b hb => h b (List.mem_cons_of_mem a hb)]

theorem runCloses_first_fail (fails : CloseAction → Bool) (pre : List CloseAction)
    (a : CloseAction) (post : List CloseAction)
    (hpre : ∀ b ∈ pre, fails b = false) (ha : fails a = true) :
    runCloses fails (pre ++ a :: post) = pre ++ [a] := by
  induction pre with
  | nil => simp [runCloses, ha]
  | cons b pre' ih =>
    have hrest := ih fun c hc => hpre c (List.mem_cons_of_mem b hc)
    simp only [List.cons_append, runCloses, hpre b (List.mem_cons_self b pre')]
    simp only [Bool.false_eq_true, if_false]
    exact congrArg (b :: ·) hrest

theorem ensurePage_isSome (s : SessionState) :
    (ensurePage s).currentPage.isSome = true := by
  unfold ensurePage
  split
  · assumption
  · rfl

theorem ensureBrowser_currentPage_isSome (s : SessionState) :
    (ensureBrowser s).currentPage.isSome = true :=
  ensurePage_isSome _

theorem ensureBrowser_of_initialized (s : SessionState)
    (hp : s.playwright = true) (hb : s.browser = true) (hc : s.context = true)
    (hcp : s.currentPage.isSome = true) : ensureBrowser s = s := by
  unfold ensureBrowser ensurePlaywright ensureBrowserHandle ensureContext ensurePage
  simp [hp, hb, hc, hcp]

theorem vUrl_ok_eq {b b' : Bag} (h : vUrl b = Except.ok b') : b' = b := by
  unfold vUrl at h
  split at h
  · exact (Except.ok.inj h).symm
  · split at h
    · exact absurd h (by simp)
    · split at h
      · exact (Except.ok.inj h).symm
      · exact absurd h (by simp)
  · exact absurd h (by simp)

theorem vText_ok_eq {b b' : Bag} (h : vText b = Except.ok b') : b' = b := by
  unfold vText at h
  split at h
  · exact (Except.ok.inj h).symm
  · exact (Except.ok.inj h).symm
  · exact absurd h (by simp)

theorem vScript_ok_eq {b b' : Bag} (h : vScript b = Except.ok b') : b' = b := by
  unfold vScript at h
  split at h
  · exact (Except.ok.inj h).symm
  · split at h
    · exact absurd h (by simp)
    · exact (Except.ok.inj h).symm
  · exact absurd h (by simp)

theorem vFormData_ok_eq {b b' : Bag} (h : vFormData b = Except.ok b') : b' = b := by
  unfold vFormData at h
  split at h
  · exact (Except.ok.inj h).symm
  · split at h
    · exact (Except.ok.inj h).symm
    · exact absurd h (by simp)
  · exact absurd h (by simp)

theorem vTimeout_get_ne (b : Bag) (k : String) (h : k ≠ "timeout") :
    bagGet (vTimeout b) k = bagGet b k := by
  unfold vTimeout
  split
  · rfl
  · split
    · exact bagGet_bagSet_ne b _ k _ h
    · split
      · exact bagGet_bagSet_ne b _ k _ h
      · split
        · exact bagGet_bagSet_ne b _ k _ h
        · rfl

theorem vSelector_ok_get_ne {b b' : Bag} (k : String) (h : vSelector b = Except.ok b')
    (hk : k ≠ "selector") : bagGet b' k = bagGet b k := by
  unfold vSelector at h
  split at h
  · rw [(Except.ok.inj h).symm]
  · split at h
    · exact absurd h (by simp)
    · rw [(Except.ok.inj h).symm]
      exact bagGet_bagSet_ne b _ k _ hk
  · exact absurd h (by simp)

/-- Every message a ValueError raised by _validate_arguments can carry; no
rule about timeout appears among them. -/
def validationMessages : List String :=
  ["Selector must be a non-empty string",
   "URL must be a non-empty string",
   "URL must start with http://, https://, or file://",
   "Text must be a string",
   "Script must be a non-empty string",
   "Form data must be a dictionary",
   "Form data keys must be non-empty strings (CSS selectors)",
   "Form data values must be strings"]

theorem vSelector_error_eq {b : Bag} {e : String} (h : vSelector b = Except.error e) :
    e = "Selector must be a non-empty string" := by
  unfold vSelector at h
  split at h
  · exact absurd h (by simp)
  · split at h
    · exact (Except.error.inj h).symm
    · exact absurd h (by simp)
  · exact (Except.error.inj h).symm

theorem vUrl_error_eq {b : Bag} {e : String} (h : vUrl b = Except.error e) :
    e = "URL must be a non-empty string"
    ∨ e = "URL must start with http://, https://, or file://" := by
  unfold vUrl at h
  split at h
  · exact absurd h (by simp)
  · split at h
    · exact Or.inl (Except.error.inj h).symm
    · split at h
      · exact absurd h (by simp)
      · exact Or.inr (Except.error.inj h).symm
  · exact Or.inl (Except.error.inj h).symm

theorem vText_error_eq {b : Bag} {e : String} (h : vText b = Except.error e) :
    e = "Text must be a string" := by
  unfold vText at h
  split at h
  · exact absurd h (by simp)
  · exact absurd h (by simp)
  · exact (Except.error.inj h).symm

theorem vScript_error_eq {b : Bag} {e : String} (h : vScript b = Except.error e) :
    e = "Script must be a non-empty string" := by
  unfold vScript at h
  split at h
  · exact absurd h (by simp)
  · split at h
    · exact (Except.error.inj h).symm
    · exact absurd h (by simp)
  · exact (Except.error.inj h).symm

theorem vFormEntries_error_eq :
    ∀ (l : List (String × Value)) (e : String), vFormEntries l = Except.error e →
    e = "Form data keys must be non-empty strings (CSS selectors)"
    ∨ e = "Form data values must be strings" := by
  intro l
  induction l with
  | nil =>
    intro e h
    exact absurd h (by simp [vFormEntries])
  | cons kv rest ih =>
    intro e h
    obtain ⟨k, v⟩ := kv
    unfold vFormEntries at h
    split at h
    · exact Or.inl (Except.error.inj h).symm
    · split at h
      · exact ih e h
      · exact Or.inr (Except.error.inj h).symm

theorem vFormData_error_mem {b : Bag} {e : String} (h : vFormData b = Except.error e) :
    e ∈ validationMessages := by
  unfold vFormData at h
  split at h
  · exact absurd h (by simp)
  · split at h
    · exact absurd h (by simp)
    · rename_i e' herr
      rcases vFormEntries_error_eq _ e' herr with h' | h' <;>
        simp [validationMessages, (Except.error.inj h).symm, h']
  · simp [validationMessages, (Except.error.inj h).symm]

theorem validateArguments_error_mem {name : String} {args? : Option Bag} {e : String}
    (h : validateArguments name args? = Except.error e) : e ∈ validationMessages := by
  unfold validateArguments at h
  split at h
  · rename_i e' heq
    rw [← Except.error.inj h]
    simp [validationMessages, vSelector_error_eq heq]
  · split at h
    · rename_i e' heq
      rw [← Except.error.inj h]
      rcases vUrl_error_eq heq with h' | h' <;> simp [validationMessages, h']
    · split at h
      · rename_i e' heq
        rw [← Except.error.inj h]
        simp [validationMessages, vText_error_eq heq]
      · split at h
        · rename_i e' heq
          rw [← Except.error.inj h]
          simp [validationMessages, vScript_error_eq heq]
        · exact vFormData_error_mem h

/-- A navigation oracle for runs that never pass a url to _new_tab. -/
def dummyNav : Nat → String → NavOutcome := fun _ _ => NavOutcome.noResponse

/-- N successive browser_new_tab calls (no url) starting from the fresh
session. -/
def opensTabs : Nat → SessionState
  | 0 => freshSession
  | n + 1 => (newTab (opensTabs n) none dummyNav).1

/-- j successive browser_close_tab calls (close succeeding) from a state. -/
def closesTabs : Nat → SessionState → SessionState
  | 0, s => s
  | n + 1, s => closesTabs n (closeTab s false ("")).1

theorem opensTabs_state (N : Nat) (hN : 1 ≤ N) :
    opensTabs N = { playwright := true, browser := true, context := true,
                    pages := List.range (N + 1), currentPage := some N,
                    nextId := N + 1 } := by
  induction N with
  | zero => omega
  | succ n ih =>
    by_cases hn : 1 ≤ n
    · show (newTab (opensTabs n) none dummyNav).1 = _
      rw [ih hn]
      simp only [newTab]
      norm_num
      rw [← List.range_succ]
    · have hn0 : n = 0 := by omega
      subst hn0
      decide

theorem closeTab_fst_range (m nx : Nat) (f : Bool) (e : String) (hm : 1 ≤ m) :
    (closeTab { playwright := true, browser := true, context := true,
                pages := List.range (m + 1), currentPage := some m,
                nextId := nx } f e).1
    = { playwright := true, browser := true, context := true,
        pages := List.range m, currentPage := some (m - 1), nextId := nx } := by
  obtain ⟨m', rfl⟩ : ∃ m', m = m' + 1 := ⟨m - 1, by omega⟩
  have hlen : ¬ (List.range (m' + 1 + 1)).length ≤ 1 := by simp
  have her : (List.range (m' + 1 + 1)).erase (m' + 1) = List.range (m' + 1) := by
    rw [List.range_succ, List.erase_append_right _ (by simp)]
    simp
  have hlast : (List.range (m' + 1)).getLast? = some m' := by
    rw [List.range_succ]
    exact List.getLast?_concat _
  simp only [closeTab, if_neg hlen, her, hlast]
  split <;> simp

theorem closesTabs_state : ∀ (j m nx : Nat), j ≤ m →
    closesTabs j { playwright := true, browser := true, context := true,
                   pages := List.range (m + 1), currentPage := some m,
                   nextId := nx }
    = { playwright := true, browser := true, context := true,
        pages := List.range (m + 1 - j), currentPage := some (m - j),
        nextId := nx } := by
  intro j
  induction j with
  | zero => intro m nx _; simp [closesTabs]
  | succ n ih =>
    intro m nx h
    show closesTabs n (closeTab _ false ("")).1 = _
    rw [closeTab_fst_range m nx false ("") (by omega)]
    have hm1 : List.range m = List.range ((m - 1) + 1) := by
      congr 1
      omega
    rw [hm1, ih (m - 1) nx (by omega)]
    have e1 : m - 1 + 1 - n = m + 1 - (n + 1) := by omega
    have e2 : m - 1 - n = m - (n + 1) := by omega
    rw [e1, e2]

/-! Claim theorems. -/

/-- C4 counterexample: with exactly one page open, _close_tab answers with
the text Cannot close the last tab, which does not contain the substring
cannot close last tab that the claim quotes. -/
theorem C4_counterexample :
    (closeTab { playwright := true, browser := true, context := true,
                pages := [0], currentPage := some 0, nextId := 1 }
       false ("")).2 = "Cannot close the last tab"
    ∧ strContains ("Cannot close the last tab") ("cannot close last tab") = false := by
  constructor
  · rfl
  · decide

/-- C4 (amended): in every state with exactly one open page which is
current, _close_tab returns the refusal text Cannot close the last tab and
leaves the whole session state unchanged, whether or not the close call
would fail; calling it again refuses identically. -/
theorem C4_last_tab_refusal (s : SessionState) (p : Nat) (f : Bool) (e : String)
    (h1 : s.pages = [p]) (h2 : s.currentPage = some p) :
    closeTab s f e = (s, "Cannot close the last tab")
    ∧ closeTab (closeTab s f e).1 f e = (s, "Cannot close the last tab") := by
  have hmain : closeTab s f e = (s, "Cannot close the last tab") := by
    unfold closeTab
    simp only [h2, h1]
    rfl
  refine ⟨hmain, ?_⟩
  rw [congrArg Prod.fst hmain]
  exact hmain

/-- C4 witness: the refusal theorem applied at a concrete one-page state. -/
theorem C4_witness :
    closeTab { playwright := true, browser := true, context := true,
               pages := [5], currentPage := some 5, nextId := 6 } true ("boom")
      = ({ playwright := true, browser := true, context := true,
           pages := [5], currentPage := some 5, nextId := 6 },
         "Cannot close the last tab") :=
  (C4_last_tab_refusal _ 5 true ("boom") rfl rfl).1

/-- C10: with a current page and at least two pages open, _close_tab removes
the current page and reassigns the current-page reference before awaiting
page.close, so when the close raises, the returned text reports failure but
the removal and reassignment persist. -/
theorem C10_close_failure_persists (s : SessionState) (p : Nat) (e : String)
    (h1 : s.currentPage = some p) (h2 : 2 ≤ s.pages.length) :
    closeTab s true e
      = ({ s with pages := s.pages.erase p,
                  currentPage := (s.pages.erase p).getLast? },
         "Failed to close tab: " ++ e) := by
  unfold closeTab
  simp only [h1]
  rw [if_neg (by omega)]
  simp

/-- C10 witness: the persistence theorem applied at a concrete two-page
state whose close call raises. -/
theorem C10_witness :
    closeTab { playwright := true, browser := true, context := true,
               pages := [0, 1], currentPage := some 1, nextId := 2 } true ("boom")
      = ({ playwright := true, browser := true, context := true,
           pages := [0], currentPage := some 0, nextId := 2 },
         "Failed to close tab: boom") := by
  have h := C10_close_failure_persists
    { playwright := true, browser := true, context := true,
      pages := [0, 1], currentPage := some 1, nextId := 2 } 1 ("boom") rfl (by decide)
  exact h

/-- The concrete session used by the C3 counterexample: two pages and all
three handles live. -/
def c3State : SessionState :=
  { playwright := true, browser := true, context := true,
    pages := [0, 1], currentPage := some 1, nextId := 2 }

/-- C3 counterexample: when closing the first page fails, cleanup attempts
nothing further (the second page, context, browser and engine are all
skipped), and because no handle is cleared, a second cleanup re-attempts the
full close plan instead of no-opping. -/
theorem C3_counterexample :
    (cleanup c3State (fun a => decide (a = CloseAction.closePage 0))).2
      = [CloseAction.closePage 0]
    ∧ CloseAction.closeContext ∉
        (cleanup c3State (fun a => decide (a = CloseAction.closePage 0))).2
    ∧ (cleanup (cleanup c3State (fun _ => false)).1 (fun _ => false)).2
        = [CloseAction.closePage 0, CloseAction.closePage 1,
           CloseAction.closeContext, CloseAction.closeBrowser,
           CloseAction.stopDriver]
    ∧ (cleanup (cleanup c3State (fun _ => false)).1 (fun _ => false)).2 ≠ [] := by
  refine ⟨by decide, by decide, by decide, by decide⟩

/-- C3 (amended): cleanup releases in strict reverse-acquisition order
(pages in open order, then context, then browser, then engine) and catches a
failure instead of raising it, but a failure aborts every remaining close
attempt, and no handle is cleared, so the state is unchanged and a second
call repeats the same close attempts rather than no-opping. -/
theorem C3_cleanup_behavior (s : SessionState) (fails : CloseAction → Bool) :
    (cleanup s fails).1 = s
    ∧ ((∀ a, fails a = false) → (cleanup s fails).2 = closePlan s)
    ∧ (∀ pre a post, closePlan s = pre ++ a :: post →
        (∀ b ∈ pre, fails b = false) → fails a = true →
        (cleanup s fails).2 = pre ++ [a])
    ∧ cleanup (cleanup s fails).1 fails = cleanup s fails := by
  refine ⟨rfl, ?_, ?_, rfl⟩
  · intro h
    exact runCloses_all_ok fails _ (fun a _ => h a)
  · intro pre a post hplan hpre ha
    show runCloses fails (closePlan s) = pre ++ [a]
    rw [hplan]
    exact runCloses_first_fail fails pre a post hpre ha

/-- C3 witness: the cleanup theorem applied at a concrete state with no
failing close. -/
theorem C3_witness :
    (cleanup c3State (fun _ => false)).2 = closePlan c3State :=
  (C3_cleanup_behavior c3State (fun _ => false)).2.1 (fun _ => rfl)

/-- C5: for every bag with a timeout key, the validator substitutes 5000
when the value is non-numeric or at most 0, clamps to 60000 above 60000,
passes every numeric value in (0, 60000] through with the bag unchanged,
and no outcome of the timeout rule ever yields a validation error (every
possible error message belongs to the other rules). -/
theorem C5_timeout_policy (b : Bag) (t : Value) (hb : bagGet b ("timeout") = some t) :
    (pyNum t = none → vTimeout b = bagSet b ("timeout") (Value.vNum 5000))
    ∧ (∀ q, pyNum t = some q → q ≤ 0 →
        vTimeout b = bagSet b ("timeout") (Value.vNum 5000))
    ∧ (∀ q, pyNum t = some q → 0 < q → q ≤ 60000 → vTimeout b = b)
    ∧ (∀ q, pyNum t = some q → 60000 < q →
        vTimeout b = bagSet b ("timeout") (Value.vNum 60000))
    ∧ (∀ name e, validateArguments name (some b) = Except.error e →
        e ∈ validationMessages) := by
  refine ⟨?_, ?_, ?_, ?_, fun name e h => validateArguments_error_mem h⟩
  · intro hp
    unfold vTimeout
    simp only [hb, hp]
  · intro q hq hle
    unfold vTimeout
    simp only [hb, hq]
    rw [if_pos hle]
  · intro q hq h0 h60
    unfold vTimeout
    simp only [hb, hq]
    rw [if_neg (not_le.mpr h0), if_neg (not_lt.mpr h60)]
  · intro q hq h60
    unfold vTimeout
    simp only [hb, hq]
    rw [if_neg (not_le.mpr (lt_trans (by norm_num) h60)), if_pos h60]

/-- C5 witness: the timeout policy applied at a concrete bag carrying a
non-numeric timeout. -/
theorem C5_witness :
    vTimeout [(("timeout" : String), Value.vStr ("soon"))]
      = bagSet [(("timeout" : String), Value.vStr ("soon"))] ("timeout")
          (Value.vNum 5000) :=
  (C5_timeout_policy [(("timeout" : String), Value.vStr ("soon"))]
    (Value.vStr ("soon")) rfl).1 rfl

/-- C8 counterexample: validation mutates the caller-supplied bag — with a
non-positive timeout, the bag the validator hands back has the timeout
entry rewritten to 5000, so it is not the bag that was passed in. -/
theorem C8_counterexample :
    validateArguments ("browser_click") (some [(("timeout" : String), Value.vNum 0)])
      = Except.ok [(("timeout" : String), Value.vNum 5000)]
    ∧ ([(("timeout" : String), Value.vNum 5000)] : Bag)
        ≠ [(("timeout" : String), Value.vNum 0)] := by
  constructor
  · rfl
  · intro h
    simp only [List.cons.injEq, Prod.mk.injEq, Value.vNum.injEq] at h
    have : (5000 : Rat) = 0 := h.1.2
    norm_num at this

/-- C8 (amended): the validator mutates the caller-supplied bag in place
only through the timeout correction and the selector strip — on success the
returned bag (the same Python object as the input) agrees with the input at
every key other than timeout and selector, and no other shared state
exists to touch. -/
theorem C8_validate_in_place (name : String) (b b' : Bag)
    (h : validateArguments name (some b) = Except.ok b') :
    ∀ k, k ≠ "timeout" → k ≠ "selector" → bagGet b' k = bagGet b k := by
  intro k hkt hks
  unfold validateArguments at h
  simp only [Option.getD_some] at h
  split at h
  · exact absurd h (by simp)
  · rename_i b2 hsel
    split at h
    · exact absurd h (by simp)
    · rename_i b3 hurl
      split at h
      · exact absurd h (by simp)
      · rename_i b4 htext
        split at h
        · exact absurd h (by simp)
        · rename_i b5 hscript
          rw [vFormData_ok_eq h, vScript_ok_eq hscript, vText_ok_eq htext,
              vUrl_ok_eq hurl, vSelector_ok_get_ne k hsel hks]
          exact vTimeout_get_ne b k hkt

/-- C8 witness: the frame theorem applied at a concrete bag whose timeout
is corrected while its limit entry is untouched. -/
theorem C8_witness :
    bagGet [(("timeout" : String), Value.vNum 5000),
            (("limit" : String), Value.vNum 3)] ("limit")
      = bagGet [(("timeout" : String), Value.vStr ("x")),
                (("limit" : String), Value.vNum 3)] ("limit") :=
  C8_validate_in_place ("browser_click")
    [(("timeout" : String), Value.vStr ("x")), (("limit" : String), Value.vNum 3)]
    [(("timeout" : String), Value.vNum 5000), (("limit" : String), Value.vNum 3)]
    rfl ("limit") (by decide) (by decide)

/-- The fill oracle of the C2 scenario: filling #a succeeds and any other
selector raises a timeout. -/
def c2Fill : String → String → Except String Unit :=
  fun sel _ =>
    if sel = "#a" then Except.ok () else Except.error ("Timeout 5000ms exceeded.")

/-- C2: evaluating fill_form at the scenario input — one field fills and one
fails — shows the tally line reporting 0/2, not the 1/2 the specification
promises, because the source subtracts the failure count from the success
count; the itemized success and failure lines are as specified. -/
theorem C2_fill_form_tally :
    fillForm c2Fill (fun _ => Except.ok ())
        [(("#a" : String), ("x" : String)), (("#bad" : String), ("y" : String))] none
      = "Filled 0/2 fields (1 failed)\n✓ #a: filled\n✗ #bad: Timeout 5000ms exceeded." := by
  rfl

/-- The text oracle of the C7 witness: element 1 has whitespace-padded text
and element 2 has empty text. -/
def c7TextOf : Nat → Option String :=
  fun n => if n = 1 then some (" a ") else some ("")

/-- C7 counterexample: when nothing matches the selector (the single-element
wait raises and the fallback query finds no elements), get_text returns a
Failed to get text message, not the empty string the claim promises. -/
theorem C7_counterexample :
    getText (Except.error ("Timeout 5000ms exceeded.")) (fun _ => none)
        (Except.ok []) ("#missing")
      = "Failed to get text from element #missing: Timeout 5000ms exceeded."
    ∧ getText (Except.error ("Timeout 5000ms exceeded.")) (fun _ => none)
        (Except.ok []) ("#missing") ≠ "" := by
  refine ⟨rfl, by decide⟩

/-- C7 (amended): get_text resolves a single element's text (empty for a
None text); on failure of the single-element path it falls back to all
matching elements and joins their trimmed truthy texts with the separator,
returning the empty string when the fallback elements yield no text; and
when the fallback finds no elements at all it returns a Failed to get text
message carrying the original error, not the empty string. -/
theorem C7_get_text_behavior (waitRes : Except String (Option Nat))
    (textOf : Nat → Option String) (allRes : Except String (List Nat))
    (selector : String) :
    (∀ el, waitRes = Except.ok (some el) →
      getText waitRes textOf allRes selector = (textOf el).getD (""))
    ∧ (∀ e els, waitRes = Except.error e → allRes = Except.ok els → els ≠ [] →
        getText waitRes textOf allRes selector =
          (if (trimmedTexts textOf els).isEmpty then ""
           else String.intercalate (" | ") (trimmedTexts textOf els)))
    ∧ (∀ e, waitRes = Except.error e → allRes = Except.ok [] →
        getText waitRes textOf allRes selector =
          "Failed to get text from element " ++ selector ++ ": " ++ e) := by
  refine ⟨?_, ?_, ?_⟩
  · intro el hw
    rw [hw]
    rfl
  · intro e els hw ha hne
    rw [hw, ha, getText.eq_def]
    simp [List.isEmpty_iff, hne]
  · intro e hw ha
    rw [hw, ha]
    rfl

/-- C7 witness: the fallback branch applied at a concrete failing wait with
two fallback elements, one trimmed text surviving. -/
theorem C7_witness :
    getText (Except.error ("E")) c7TextOf (Except.ok [1, 2]) ("#x") = "a" := by
  have h := (C7_get_text_behavior (Except.error ("E")) c7TextOf
    (Except.ok [1, 2]) ("#x")).2.1 ("E") [1, 2] rfl rfl (by decide)
  rw [h]
  decide

/-- C1 counterexample: dispatching an unknown tool name on the fresh session
does return the Unknown tool text, but it first initializes the browser —
handle_call_tool awaits _ensure_browser before resolving the name, so the
session state is not left unchanged. -/
theorem C1_counterexample :
    (handleCallTool freshSession ("bogus_tool") none defaultEnv).2
      = "Unknown tool: bogus_tool"
    ∧ (handleCallTool freshSession ("bogus_tool") none defaultEnv).1 ≠ freshSession
    ∧ (handleCallTool freshSession ("bogus_tool") none defaultEnv).1.browser = true
    ∧ freshSession.browser = false := by
  refine ⟨rfl, by decide, rfl, rfl⟩

/-- C1 (amended): for every tool name outside the known set and every
argument bag that passes validation, handle_call_tool returns the text
Unknown tool followed by the name and leaves the session in the state
_ensure_browser produces — on an already fully initialized session that
state is unchanged, but an uninitialized session is initialized first. -/
theorem C1_unknown_tool (s : SessionState) (name : String) (args? : Option Bag)
    (env : ToolEnv) (va : Bag) (hname : name ∉ knownTools)
    (hval : validateArguments name args? = Except.ok va) :
    handleCallTool s name args? env = (ensureBrowser s, "Unknown tool: " ++ name)
    ∧ (s.playwright = true → s.browser = true → s.context = true →
        s.currentPage.isSome = true →
        handleCallTool s name args? env = (s, "Unknown tool: " ++ name)) := by
  simp only [knownTools, List.mem_cons, List.not_mem_nil, or_false, not_or] at hname
  obtain ⟨n1, n2, n3, n4, n5, n6, n7, n8, n9, n10, n11, n12, n13, n14, n15,
    n16, n17, n18, n19, n20, n21, n22, n23⟩ := hname
  have hmain : handleCallTool s name args? env
      = (ensureBrowser s, "Unknown tool: " ++ name) := by
    unfold handleCallTool
    rw [hval]
    obtain ⟨p, hp⟩ := Option.isSome_iff_exists.mp (ensureBrowser_currentPage_isSome s)
    simp only [hp, n1, n2, n3, n4, n5, n6, n7, n8, n9, n10, n11, n12, n13, n14,
      n15, n16, n17, n18, n19, n20, n21, n22, n23, if_false]
  refine ⟨hmain, fun hpw hbr hcx hcp => ?_⟩
  rw [hmain, ensureBrowser_of_initialized s hpw hbr hcx hcp]

/-- C1 witness: the unknown-tool theorem applied at a concrete fully
initialized session, which dispatch leaves unchanged. -/
theorem C1_witness :
    handleCallTool { playwright := true, browser := true, context := true,
                     pages := [0], currentPage := some 0, nextId := 1 }
        ("bogus_tool") none defaultEnv
      = ({ playwright := true, browser := true, context := true,
           pages := [0], currentPage := some 0, nextId := 1 },
         "Unknown tool: bogus_tool") := by
  have h := C1_unknown_tool
    { playwright := true, browser := true, context := true,
      pages := [0], currentPage := some 0, nextId := 1 }
    ("bogus_tool") none defaultEnv [] (by decide) rfl
  exact h.2 rfl rfl rfl rfl

/-- The session of the C9 counterexample: initialized, one page open. -/
def c9State : SessionState :=
  { playwright := true, browser := true, context := true,
    pages := [0], currentPage := some 0, nextId := 1 }

/-- The navigation oracle of the C9 counterexample: every goto completes
with HTTP status 404. -/
def c9Nav : Nat → String → NavOutcome := fun _ _ => NavOutcome.ok 404

/-- C9 counterexample: _new_tab classifies navigation by searching the
navigate result for the substring Successfully, so a URL that itself
contains that substring defeats the check — navigation completed with
status 404, yet the result claims the tab navigated successfully. -/
theorem C9_counterexample :
    (newTab c9State (some ("https://Successfully.test/x")) c9Nav).2
      = "New tab opened and navigated to: https://Successfully.test/x" := by
  decide

/-- C9 (amended): for every URL that does not itself contain the substring
Successfully, when navigation completes with an HTTP status of at least 400
_new_tab reports New tab opened but navigation failed together with the
completed-with-status text, while the new page stays appended to the page
sequence as the current page. -/
theorem C9_new_tab_bad_status (s : SessionState) (url : String) (status : Nat)
    (nav : Nat → String → NavOutcome) (hc : s.context = true)
    (hst : 400 ≤ status) (hnav : nav s.nextId url = NavOutcome.ok status)
    (hurl : containsSub url.data (("Successfully").data) = false)
    (hne : url ≠ "") :
    newTab s (some url) nav
      = ({ s with pages := s.pages ++ [s.nextId], currentPage := some s.nextId,
                  nextId := s.nextId + 1 },
         "New tab opened but navigation failed: "
           ++ ("Navigation to " ++ url ++ " completed with status "
                ++ natStr status)) := by
  have hmsg : navigateText url (nav s.nextId url)
      = "Navigation to " ++ url ++ " completed with status " ++ natStr status := by
    rw [hnav]
    unfold navigateText
    dsimp only
    rw [if_pos hst]
  unfold newTab
  simp only [hc, if_true, if_neg hne, hmsg,
    navMsg_no_success url status hurl, Bool.false_eq_true, if_false]

/-- C9 witness: the amended theorem applied at a concrete initialized
session navigating a plain URL that completes with status 500. -/
theorem C9_witness :
    newTab { playwright := true, browser := true, context := true,
             pages := [0], currentPage := some 0, nextId := 1 }
        (some ("https://example.com/x")) (fun _ _ => NavOutcome.ok 500)
      = ({ playwright := true, browser := true, context := true,
           pages := [0, 1], currentPage := some 1, nextId := 2 },
         "New tab opened but navigation failed: Navigation to https://example.com/x completed with status 500") := by
  have h := C9_new_tab_bad_status
    { playwright := true, browser := true, context := true,
      pages := [0], currentPage := some 0, nextId := 1 }
    ("https://example.com/x") 500 (fun _ _ => NavOutcome.ok 500)
    rfl (by decide) rfl (by decide) (by decide)
  exact h

/-- C6 counterexample: the first _new_tab on a fresh session creates two
pages, because _ensure_browser itself creates an initial page before the new
tab is added — so opening one tab and closing none leaves two pages with
the second (not the first-opened) current, against the claimed one page. -/
theorem C6_counterexample :
    (closesTabs 0 (opensTabs 1)).pages = [0, 1]
    ∧ (closesTabs 0 (opensTabs 1)).pages.length ≠ 1
    ∧ (closesTabs 0 (opensTabs 1)).currentPage = some 1 := by
  refine ⟨by decide, by decide, by decide⟩

/-- C6 (amended): from a fresh session, opening N tabs creates N + 1 pages
(session initialization adds an implicit first page); closing N tabs — one
more than the claim said — leaves exactly the first-opened page, which is
the non-null current page; and every successful close makes current the
page that is last in the sequence after removal, the most-recently-opened
remaining page. -/
theorem C6_tabs_lifecycle (N : Nat) (hN : 1 ≤ N) :
    (opensTabs N).pages.length = N + 1
    ∧ (closesTabs N (opensTabs N)).pages = [0]
    ∧ (closesTabs N (opensTabs N)).currentPage = some 0
    ∧ (∀ (s : SessionState) (p : Nat) (f : Bool) (e : String),
        s.currentPage = some p → 2 ≤ s.pages.length →
        (closeTab s f e).1.currentPage = (s.pages.erase p).getLast?) := by
  have hstate := opensTabs_state N hN
  have hcl := closesTabs_state N N (N + 1) le_rfl
  refine ⟨?_, ?_, ?_, ?_⟩
  · rw [hstate]
    simp
  · rw [hstate, hcl]
    have h1 : N + 1 - N = 1 := by omega
    rw [h1]
    rfl
  · rw [hstate, hcl]
    simp
  · intro s p f e h1 h2
    unfold closeTab
    simp only [h1]
    rw [if_neg (by omega)]
    split <;> rfl

/-- C6 witness: the lifecycle theorem applied at N = 2. -/
theorem C6_witness :
    (closesTabs 2 (opensTabs 2)).pages = [0]
    ∧ (closesTabs 2 (opensTabs 2)).currentPage = some 0 := by
  have h := C6_tabs_lifecycle 2 (by decide)
  exact ⟨h.2.1, h.2.2.1⟩
